import Mathlib

/-!
Verification of the OIDC login package: a shallow embedding of the
callback handler (login/callback handling) and of the token source
hierarchy (ReuseTokenSource, TokenRefresher), with theorems about the
behaviour the specification describes.

The embedding translates the Go source directly:
* url.Values becomes a list of key/value pairs with a Get returning the
  first value bound to a key, or the empty string;
* the HTTP exchange client, the verifier and the wrapped token source are
  capabilities passed as function parameters;
* the channel sends and network calls performed by a handler invocation
  are recorded explicitly in the returned result structures.
-/

namespace Oidc

/-- Token is the credential bundle: access token, refresh token, ID token.
Only the fields the verified code reads are modelled. -/
structure Token where
  accessToken : String
  refreshToken : String
  idToken : String
deriving DecidableEq, Repr

/-- Values models Go url.Values as an association list; Get returns the
first value bound to the key, or the empty string when absent. -/
structure Values where
  pairs : List (String × String)
deriving DecidableEq, Repr

def Values.Get (v : Values) (k : String) : String :=
  match v.pairs.find? (fun p => p.1 == k) with
  | some p => p.2
  | none => ""

def codeParam : String := "code"

def stateParam : String := "state"

def errParam : String := "error"

def errDescParam : String := "error_description"

/-- parseCallbackRequest mirrors the Go function of the same name: it
checks state presence first, then a provider error, then code presence,
and returns (code, state) on success. -/
def parseCallbackRequest (form : Values) : Except String (String × String) :=
  let state := form.Get stateParam
  if state = "" then
    Except.error "User session error. No state parameter."
  else
    let errorCode := form.Get errParam
    if errorCode ≠ "" then
      Except.error ("Got error from provider: " ++ errorCode ++ " Desc: " ++
        form.Get errDescParam)
    else
      let code := form.Get codeParam
      if code = "" then
        Except.error "Missing code token."
      else
        Except.ok (code, state)

/-- HttpResponse is the status line and plain-text body written back to the
browser. -/
structure HttpResponse where
  status : Nat
  body : String
deriving DecidableEq, Repr

/-- OKCallbackResponse is the default response on a successful flow:
status 200 with a fixed completion message. -/
def OKCallbackResponse : HttpResponse :=
  { status := 200,
    body := "OIDC authentication flow is completed. You can close browser tab." }

/-- ErrCallbackResponse is the default response on a failed flow; it takes
the error but deliberately ignores it, answering 200 with the same fixed
completion message as the success case. -/
def ErrCallbackResponse (_err : String) : HttpResponse :=
  { status := 200,
    body := "OIDC authentication flow is completed. You can close browser tab." }

/-- CallbackMsg is the outcome sent over the callback channel: either a
token or an error. -/
inductive CallbackMsg where
  | token (t : Token)
  | err (e : String)
deriving DecidableEq, Repr

/-- HttpRequest abstracts the incoming callback request: the result of
ParseForm (an error, or none on success) and the parsed form values. -/
structure HttpRequest where
  parseFormErr : Option String
  form : Values
deriving DecidableEq, Repr

/-- HandlerResult records the observable effects of one invocation of the
callback handler: the HTTP response written to the browser, the messages
sent on the callback channel (in order), and whether the exchange client
was invoked. -/
structure HandlerResult where
  response : HttpResponse
  outcomes : List CallbackMsg
  exchangeCalled : Bool
deriving DecidableEq, Repr

/-- callbackHandler mirrors the Go closure returned by callbackHandler:
ParseForm failure, parseCallbackRequest failure and state mismatch each
respond with ErrCallbackResponse and send one error message; otherwise the
exchange client is invoked with the code, and either the error or the
token is sent, after the corresponding browser response. -/
def callbackHandler (exchange : String → Except String Token)
    (expectedState : String) (r : HttpRequest) : HandlerResult :=
  match r.parseFormErr with
  | some e =>
    let msg := "Failed to parse request form. Err: " ++ e
    { response := ErrCallbackResponse msg,
      outcomes := [CallbackMsg.err msg],
      exchangeCalled := false }
  | none =>
    match parseCallbackRequest r.form with
    | Except.error e =>
      { response := ErrCallbackResponse e,
        outcomes := [CallbackMsg.err e],
        exchangeCalled := false }
    | Except.ok (code, state) =>
      if state ≠ expectedState then
        let msg := "Invalid state parameter. Got " ++ state ++
          ", expected: " ++ expectedState
        { response := ErrCallbackResponse msg,
          outcomes := [CallbackMsg.err msg],
          exchangeCalled := false }
      else
        match exchange code with
        | Except.error e =>
          { response := ErrCallbackResponse e,
            outcomes := [CallbackMsg.err e],
            exchangeCalled := true }
        | Except.ok tok =>
          { response := OKCallbackResponse,
            outcomes := [CallbackMsg.token tok],
            exchangeCalled := true }

/-- runHandlerSeq runs the same handler closure on a sequence of requests.
The Go closure captures no mutable state that its control flow reads
(expectedState, the client and the channel are read-only from its point of
view), so each invocation behaves independently of the previous ones. -/
def runHandlerSeq (exchange : String → Except String Token)
    (expectedState : String) (rs : List HttpRequest) : List HandlerResult :=
  rs.map (callbackHandler exchange expectedState)

/-- strContains states that sub occurs contiguously inside s. -/
def strContains (s sub : String) : Prop :=
  sub.toList <:+: s.toList

instance (s sub : String) : Decidable (strContains s sub) := by
  unfold strContains
  infer_instance

/-- ReuseTokenSource is the cache state of the reusing token source: the
optional cached token guarded (in Go) by the mutex. -/
structure ReuseTokenSource where
  t : Option Token
deriving DecidableEq, Repr

/-- ReuseResult records the observable effects of one OIDCToken call on a
ReuseTokenSource: the returned token or error, the cache state after the
call, whether the wrapped source was called, and whether the validity of a
cached token was checked with the verifier. -/
structure ReuseResult where
  result : Except String Token
  cache : ReuseTokenSource
  newCalled : Bool
  validityChecked : Bool

/-- ReuseTokenSource.OIDCToken mirrors the Go method: when a token is
cached and IsValid reports no error it is returned unchanged; otherwise
the wrapped source is called, the cache is replaced only on success, and
an error from the wrapped source is propagated with the cache untouched.
The isValid capability returns none when the token is valid, and the
wrapped source call is the new parameter. -/
def ReuseTokenSource.OIDCToken (isValid : Token → Option String)
    (new : Except String Token) (s : ReuseTokenSource) : ReuseResult :=
  match s.t with
  | some t =>
    match isValid t with
    | none =>
      { result := Except.ok t, cache := ⟨some t⟩,
        newCalled := false, validityChecked := true }
    | some _ =>
      match new with
      | Except.ok t2 =>
        { result := Except.ok t2, cache := ⟨some t2⟩,
          newCalled := true, validityChecked := true }
      | Except.error e =>
        { result := Except.error e, cache := ⟨some t⟩,
          newCalled := true, validityChecked := true }
  | none =>
    match new with
    | Except.ok t2 =>
      { result := Except.ok t2, cache := ⟨some t2⟩,
        newCalled := true, validityChecked := false }
    | Except.error e =>
      { result := Except.error e, cache := ⟨none⟩,
        newCalled := true, validityChecked := false }

/-- ReuseTokenSource.reset mirrors the Go reset method: it clears the
cached token. -/
def ReuseTokenSource.reset (_s : ReuseTokenSource) : ReuseTokenSource :=
  ⟨none⟩

def GrantTypeRefreshToken : String := "refresh_token"

/-- TokenRefresher holds the state of the refresh-token grant source: the
mutable refresh token and the client configuration it sends. -/
structure TokenRefresher where
  refreshToken : String
  clientID : String
  clientSecret : String
  scopes : List String
deriving DecidableEq, Repr

/-- TokenRefresher.requestValues builds the form values of the refresh
request, exactly as the Go method does before calling client.token. -/
def TokenRefresher.requestValues (tf : TokenRefresher) : List (String × String) :=
  [("grant_type", GrantTypeRefreshToken), ("refresh_token", tf.refreshToken)] ++
    (if tf.scopes.length > 0 then
      [("scope", String.intercalate " " tf.scopes)]
    else [])

/-- RefreshResult records the observable effects of one OIDCToken call on
a TokenRefresher: the returned token or error, the refresher state after
the call, and whether a network (token endpoint) call was made. -/
structure RefreshResult where
  result : Except String Token
  state : TokenRefresher
  networkCalled : Bool

/-- TokenRefresher.OIDCToken mirrors the Go method: an empty held refresh
token fails immediately with no network call; otherwise the token
endpoint (clientToken capability, receiving client id, client secret and
the form values) is called, errors are propagated unchanged, and on
success the held refresh token is overwritten whenever the returned one
differs. -/
def TokenRefresher.OIDCToken
    (clientToken : String → String → List (String × String) → Except String Token)
    (tf : TokenRefresher) : RefreshResult :=
  if tf.refreshToken = "" then
    { result := Except.error "oauth2: token expired and refresh token is not set",
      state := tf, networkCalled := false }
  else
    match clientToken tf.clientID tf.clientSecret tf.requestValues with
    | Except.error e =>
      { result := Except.error e, state := tf, networkCalled := true }
    | Except.ok tk =>
      if tf.refreshToken ≠ tk.refreshToken then
        { result := Except.ok tk, state := { tf with refreshToken := tk.refreshToken },
          networkCalled := true }
      else
        { result := Except.ok tk, state := tf, networkCalled := true }

end Oidc


namespace Oidc

theorem callbackHandler_response_eq (ex : String → Except String Token)
    (es : String) (r : HttpRequest) :
    (callbackHandler ex es r).response = OKCallbackResponse := by
  unfold callbackHandler
  repeat' split <;> try rfl

theorem parseCallbackRequest_provider_error (form : Values)
    (hs : form.Get stateParam ≠ "") (he : form.Get errParam ≠ "") :
    parseCallbackRequest form =
      Except.error ("Got error from provider: " ++ form.Get errParam ++
        " Desc: " ++ form.Get errDescParam) := by
  unfold parseCallbackRequest
  simp [hs, he]

theorem parseCallbackRequest_ok (form : Values)
    (hs : form.Get stateParam ≠ "") (he : form.Get errParam = "")
    (hc : form.Get codeParam ≠ "") :
    parseCallbackRequest form = Except.ok (form.Get codeParam, form.Get stateParam) := by
  unfold parseCallbackRequest
  simp [hs, he, hc]

theorem strContains_of_eq_append (s pre sub post : String)
    (h : s = pre ++ sub ++ post) : strContains s sub :=
  ⟨pre.toList, post.toList, by rw [h]; simp [String.data_append]⟩

end Oidc

namespace Oidc

/-- C10: the default browser response of the callback handler has status
200 and a byte-identical plain-text body across any two runs, whatever the
outcome or error value is (two-run noninterference of the browser-visible
response with respect to the outcome). -/
theorem callback_response_noninterference
    (ex1 ex2 : String → Except String Token) (es1 es2 : String)
    (r1 r2 : HttpRequest) :
    (callbackHandler ex1 es1 r1).response = (callbackHandler ex2 es2 r2).response ∧
    (callbackHandler ex1 es1 r1).response.status = 200 ∧
    (callbackHandler ex1 es1 r1).response.body =
      "OIDC authentication flow is completed. You can close browser tab." := by
  rw [callbackHandler_response_eq, callbackHandler_response_eq]
  exact ⟨rfl, rfl, rfl⟩

/-- C1 counterexample: the handler closure keeps no record that the
attempt concluded, so a second valid callback request for the same attempt
invokes the exchange client again and attempts another channel write: two
identical valid requests yield two exchange calls and two attempted
outcome writes, not one. -/
theorem two_valid_callbacks_both_exchange :
    (runHandlerSeq (fun _ => Except.ok ⟨"acc", "ref", "idt"⟩) "A"
      [⟨none, ⟨[("code", "c0"), ("state", "A")]⟩⟩,
       ⟨none, ⟨[("code", "c0"), ("state", "A")]⟩⟩]).map
      (fun h => (h.exchangeCalled, h.outcomes.length)) = [(true, 1), (true, 1)] := by
  decide

/-- C1 (amended): every single invocation of the callback handler writes
exactly one outcome message to the channel and terminates immediately
after writing; the handler itself does not prevent a later invocation for
the same attempt from exchanging and writing again. -/
theorem callbackHandler_writes_exactly_one_outcome
    (ex : String → Except String Token) (es : String) (r : HttpRequest) :
    (callbackHandler ex es r).outcomes.length = 1 := by
  unfold callbackHandler
  repeat' split <;> try rfl

end Oidc

namespace Oidc

/-- C2 counterexample: a request carrying error=access_denied and
error_description=user cancelled but no state parameter is answered with
the no-state session error, whose message contains neither the error nor
the error_description value, so the provider error is not passed through
regardless of the other parameters. -/
theorem provider_error_without_state_not_passed_through :
    (callbackHandler (fun _ => Except.error "unused") "A"
      ⟨none, ⟨[("error", "access_denied"), ("error_description", "user cancelled")]⟩⟩).outcomes
      = [CallbackMsg.err "User session error. No state parameter."] ∧
    ¬ strContains "User session error. No state parameter." "access_denied" ∧
    ¬ strContains "User session error. No state parameter." "user cancelled" := by
  decide

/-- C2 (amended): for every callback request that parses successfully,
carries a non-empty state parameter and a non-empty error parameter, the
handler delivers exactly one error outcome whose message contains both the
error and the error_description values, and the exchange client is never
invoked, regardless of the remaining parameters. -/
theorem provider_error_passthrough_with_state
    (ex : String → Except String Token) (es : String) (r : HttpRequest)
    (hp : r.parseFormErr = none)
    (hs : r.form.Get stateParam ≠ "")
    (he : r.form.Get errParam ≠ "") :
    (callbackHandler ex es r).outcomes =
      [CallbackMsg.err ("Got error from provider: " ++ r.form.Get errParam ++
        " Desc: " ++ r.form.Get errDescParam)] ∧
    (callbackHandler ex es r).exchangeCalled = false ∧
    strContains ("Got error from provider: " ++ r.form.Get errParam ++
        " Desc: " ++ r.form.Get errDescParam) (r.form.Get errParam) ∧
    strContains ("Got error from provider: " ++ r.form.Get errParam ++
        " Desc: " ++ r.form.Get errDescParam) (r.form.Get errDescParam) := by
  have hparse := parseCallbackRequest_provider_error r.form hs he
  refine ⟨?_, ?_, ?_, ?_⟩
  · unfold callbackHandler
    rw [hp, hparse]
  · unfold callbackHandler
    rw [hp, hparse]
  · exact strContains_of_eq_append _ "Got error from provider: " _
      (" Desc: " ++ r.form.Get errDescParam)
      (by rw [String.append_assoc, String.append_assoc])
  · exact strContains_of_eq_append _
      ("Got error from provider: " ++ r.form.Get errParam ++ " Desc: ") _ ""
      (by simp)

end Oidc

namespace Oidc

/-- C2 witness: a concrete request with state=A, error=access_denied and
error_description=user cancelled is passed through as a provider error
containing both values, with no exchange. -/
theorem provider_error_passthrough_with_state_witness :
    (callbackHandler (fun _ => Except.error "unused") "A"
      ⟨none, ⟨[("state", "A"), ("error", "access_denied"),
               ("error_description", "user cancelled")]⟩⟩).outcomes =
      [CallbackMsg.err "Got error from provider: access_denied Desc: user cancelled"] ∧
    (callbackHandler (fun _ => Except.error "unused") "A"
      ⟨none, ⟨[("state", "A"), ("error", "access_denied"),
               ("error_description", "user cancelled")]⟩⟩).exchangeCalled = false ∧
    strContains "Got error from provider: access_denied Desc: user cancelled"
      "access_denied" ∧
    strContains "Got error from provider: access_denied Desc: user cancelled"
      "user cancelled" := by
  have h := provider_error_passthrough_with_state (fun _ => Except.error "unused") "A"
    ⟨none, ⟨[("state", "A"), ("error", "access_denied"),
             ("error_description", "user cancelled")]⟩⟩
    rfl (by decide) (by decide)
  exact h

/-- C3: a callback request that parses successfully, carries a non-empty
state different from the expected state, a non-empty code and no error
parameter is rejected: one invalid-state error outcome is delivered and
the exchange client is not invoked. -/
theorem state_mismatch_rejected
    (ex : String → Except String Token) (es : String) (r : HttpRequest)
    (hp : r.parseFormErr = none)
    (hs : r.form.Get stateParam ≠ "")
    (hm : r.form.Get stateParam ≠ es)
    (he : r.form.Get errParam = "")
    (hc : r.form.Get codeParam ≠ "") :
    (callbackHandler ex es r).outcomes =
      [CallbackMsg.err ("Invalid state parameter. Got " ++ r.form.Get stateParam ++
        ", expected: " ++ es)] ∧
    (callbackHandler ex es r).exchangeCalled = false := by
  have hparse := parseCallbackRequest_ok r.form hs he hc
  constructor <;>
  · unfold callbackHandler
    rw [hp, hparse]
    simp [hm]

/-- C3 witness: with expected state A, a request carrying state B and
code c0 is rejected without exchange. -/
theorem state_mismatch_rejected_witness :
    (callbackHandler (fun _ => Except.ok ⟨"acc", "ref", "idt"⟩) "A"
      ⟨none, ⟨[("code", "c0"), ("state", "B")]⟩⟩).outcomes =
      [CallbackMsg.err "Invalid state parameter. Got B, expected: A"] ∧
    (callbackHandler (fun _ => Except.ok ⟨"acc", "ref", "idt"⟩) "A"
      ⟨none, ⟨[("code", "c0"), ("state", "B")]⟩⟩).exchangeCalled = false := by
  have h := state_mismatch_rejected (fun _ => Except.ok ⟨"acc", "ref", "idt"⟩) "A"
    ⟨none, ⟨[("code", "c0"), ("state", "B")]⟩⟩
    rfl (by decide) (by decide) (by decide) (by decide)
  exact h

end Oidc

namespace Oidc

/-- C4: when a token is cached and the verifier reports it valid, two
consecutive OIDCToken calls both return that cached token with no error,
never call the wrapped source, and leave the cache unchanged. -/
theorem reuse_cached_valid_two_calls (isValid : Token → Option String)
    (new : Except String Token) (t : Token) (hv : isValid t = none) :
    (ReuseTokenSource.OIDCToken isValid new ⟨some t⟩).result = Except.ok t ∧
    (ReuseTokenSource.OIDCToken isValid new ⟨some t⟩).newCalled = false ∧
    (ReuseTokenSource.OIDCToken isValid new ⟨some t⟩).cache = ⟨some t⟩ ∧
    (ReuseTokenSource.OIDCToken isValid new
      (ReuseTokenSource.OIDCToken isValid new ⟨some t⟩).cache).result = Except.ok t ∧
    (ReuseTokenSource.OIDCToken isValid new
      (ReuseTokenSource.OIDCToken isValid new ⟨some t⟩).cache).newCalled = false ∧
    (ReuseTokenSource.OIDCToken isValid new
      (ReuseTokenSource.OIDCToken isValid new ⟨some t⟩).cache).cache = ⟨some t⟩ := by
  simp [ReuseTokenSource.OIDCToken, hv]

/-- C4 witness: with an always-valid verifier and a concrete cached token,
both consecutive calls return the cached token and never call the wrapped
source. -/
theorem reuse_cached_valid_two_calls_witness :
    (ReuseTokenSource.OIDCToken (fun _ => none) (Except.error "down")
      ⟨some ⟨"acc", "ref", "idt"⟩⟩).result = Except.ok ⟨"acc", "ref", "idt"⟩ ∧
    (ReuseTokenSource.OIDCToken (fun _ => none) (Except.error "down")
      ⟨some ⟨"acc", "ref", "idt"⟩⟩).newCalled = false ∧
    (ReuseTokenSource.OIDCToken (fun _ => none) (Except.error "down")
      ⟨some ⟨"acc", "ref", "idt"⟩⟩).cache = ⟨some ⟨"acc", "ref", "idt"⟩⟩ ∧
    (ReuseTokenSource.OIDCToken (fun _ => none) (Except.error "down")
      (ReuseTokenSource.OIDCToken (fun _ => none) (Except.error "down")
        ⟨some ⟨"acc", "ref", "idt"⟩⟩).cache).result = Except.ok ⟨"acc", "ref", "idt"⟩ ∧
    (ReuseTokenSource.OIDCToken (fun _ => none) (Except.error "down")
      (ReuseTokenSource.OIDCToken (fun _ => none) (Except.error "down")
        ⟨some ⟨"acc", "ref", "idt"⟩⟩).cache).newCalled = false ∧
    (ReuseTokenSource.OIDCToken (fun _ => none) (Except.error "down")
      (ReuseTokenSource.OIDCToken (fun _ => none) (Except.error "down")
        ⟨some ⟨"acc", "ref", "idt"⟩⟩).cache).cache = ⟨some ⟨"acc", "ref", "idt"⟩⟩ := by
  exact reuse_cached_valid_two_calls (fun _ => none) (Except.error "down")
    ⟨"acc", "ref", "idt"⟩ rfl

/-- C5: when the cache is absent or the cached token is reported invalid,
an error from the wrapped source is propagated and the cache is exactly
what it was before the call. -/
theorem reuse_error_leaves_cache (isValid : Token → Option String)
    (e : String) (s : ReuseTokenSource)
    (hinv : ∀ t, s.t = some t → isValid t ≠ none) :
    (ReuseTokenSource.OIDCToken isValid (Except.error e) s).result = Except.error e ∧
    (ReuseTokenSource.OIDCToken isValid (Except.error e) s).cache = s ∧
    (ReuseTokenSource.OIDCToken isValid (Except.error e) s).newCalled = true := by
  rcases s with ⟨t⟩
  cases t with
  | none => simp [ReuseTokenSource.OIDCToken]
  | some t0 =>
    have h := hinv t0 rfl
    cases hiv : isValid t0 with
    | none => exact absurd hiv h
    | some m => simp [ReuseTokenSource.OIDCToken, hiv]

/-- C5 witness: with an empty cache and a failing wrapped source, the
error is propagated and the cache stays empty. -/
theorem reuse_error_leaves_cache_witness :
    (ReuseTokenSource.OIDCToken (fun _ => some "expired") (Except.error "down")
      ⟨none⟩).result = Except.error "down" ∧
    (ReuseTokenSource.OIDCToken (fun _ => some "expired") (Except.error "down")
      ⟨none⟩).cache = ⟨none⟩ ∧
    (ReuseTokenSource.OIDCToken (fun _ => some "expired") (Except.error "down")
      ⟨none⟩).newCalled = true := by
  exact reuse_error_leaves_cache (fun _ => some "expired") "down" ⟨none⟩
    (fun t ht => by simp at ht)

/-- C6: after reset, the next OIDCToken call performs no validity check on
any previously cached token and unconditionally calls the wrapped source,
whatever the verifier would have said. -/
theorem reset_forces_unconditional_refresh (isValid : Token → Option String)
    (new : Except String Token) (s : ReuseTokenSource) :
    (ReuseTokenSource.OIDCToken isValid new
      (ReuseTokenSource.reset s)).validityChecked = false ∧
    (ReuseTokenSource.OIDCToken isValid new
      (ReuseTokenSource.reset s)).newCalled = true := by
  cases new <;> simp [ReuseTokenSource.OIDCToken, ReuseTokenSource.reset]

end Oidc

namespace Oidc

/-- C7: with a non-empty held refresh token, when the token endpoint
succeeds with a token whose refresh-token value differs from the one sent,
the held refresh token equals the returned value after the call, and the
form values the next call would send carry that new value. -/
theorem refresher_rotation_updates_token
    (clientToken : String → String → List (String × String) → Except String Token)
    (tf : TokenRefresher) (tk : Token)
    (h0 : tf.refreshToken ≠ "")
    (hc : clientToken tf.clientID tf.clientSecret tf.requestValues = Except.ok tk)
    (hrot : tk.refreshToken ≠ tf.refreshToken) :
    (TokenRefresher.OIDCToken clientToken tf).result = Except.ok tk ∧
    (TokenRefresher.OIDCToken clientToken tf).state.refreshToken = tk.refreshToken ∧
    ("refresh_token", tk.refreshToken) ∈
      (TokenRefresher.OIDCToken clientToken tf).state.requestValues := by
  have hne : tf.refreshToken ≠ tk.refreshToken := fun h => hrot h.symm
  unfold TokenRefresher.OIDCToken
  rw [if_neg h0, hc]
  simp [hne, TokenRefresher.requestValues]

/-- C7 witness: a refresher holding old receives a token whose refresh
token is new; its held refresh token becomes new and the next request
carries it. -/
theorem refresher_rotation_updates_token_witness :
    (TokenRefresher.OIDCToken (fun _ _ _ => Except.ok ⟨"acc", "new", "idt"⟩)
      ⟨"old", "cid", "sec", []⟩).result = Except.ok ⟨"acc", "new", "idt"⟩ ∧
    (TokenRefresher.OIDCToken (fun _ _ _ => Except.ok ⟨"acc", "new", "idt"⟩)
      ⟨"old", "cid", "sec", []⟩).state.refreshToken = "new" ∧
    ("refresh_token", "new") ∈
      (TokenRefresher.OIDCToken (fun _ _ _ => Except.ok ⟨"acc", "new", "idt"⟩)
        ⟨"old", "cid", "sec", []⟩).state.requestValues := by
  exact refresher_rotation_updates_token (fun _ _ _ => Except.ok ⟨"acc", "new", "idt"⟩)
    ⟨"old", "cid", "sec", []⟩ ⟨"acc", "new", "idt"⟩ (by decide) rfl (by decide)

/-- C8: a refresher holding the empty refresh token fails OIDCToken
immediately with the no-refresh-token error, makes no network call, and
its state is unchanged. -/
theorem refresher_empty_token_fails_fast
    (clientToken : String → String → List (String × String) → Except String Token)
    (tf : TokenRefresher) (h0 : tf.refreshToken = "") :
    (TokenRefresher.OIDCToken clientToken tf).result =
      Except.error "oauth2: token expired and refresh token is not set" ∧
    (TokenRefresher.OIDCToken clientToken tf).networkCalled = false ∧
    (TokenRefresher.OIDCToken clientToken tf).state = tf := by
  simp [TokenRefresher.OIDCToken, h0]

/-- C8 witness: a refresher constructed with the empty refresh token
fails immediately with no network call. -/
theorem refresher_empty_token_fails_fast_witness :
    (TokenRefresher.OIDCToken (fun _ _ _ => Except.ok ⟨"acc", "ref", "idt"⟩)
      ⟨"", "cid", "sec", []⟩).result =
      Except.error "oauth2: token expired and refresh token is not set" ∧
    (TokenRefresher.OIDCToken (fun _ _ _ => Except.ok ⟨"acc", "ref", "idt"⟩)
      ⟨"", "cid", "sec", []⟩).networkCalled = false ∧
    (TokenRefresher.OIDCToken (fun _ _ _ => Except.ok ⟨"acc", "ref", "idt"⟩)
      ⟨"", "cid", "sec", []⟩).state = ⟨"", "cid", "sec", []⟩ := by
  exact refresher_empty_token_fails_fast (fun _ _ _ => Except.ok ⟨"acc", "ref", "idt"⟩)
    ⟨"", "cid", "sec", []⟩ rfl

/-- C9: when the endpoint succeeds but returns an empty refresh-token
value while a non-empty one was sent, the held refresh token is
overwritten with the empty string, and every subsequent OIDCToken call on
that refresher fails immediately with no network call and no state
change. -/
theorem refresher_rotation_to_empty_bricks
    (clientToken : String → String → List (String × String) → Except String Token)
    (tf : TokenRefresher) (tk : Token)
    (h0 : tf.refreshToken ≠ "")
    (hc : clientToken tf.clientID tf.clientSecret tf.requestValues = Except.ok tk)
    (he : tk.refreshToken = "") :
    (TokenRefresher.OIDCToken clientToken tf).state.refreshToken = "" ∧
    ∀ ct2, (TokenRefresher.OIDCToken ct2
        (TokenRefresher.OIDCToken clientToken tf).state).result =
        Except.error "oauth2: token expired and refresh token is not set" ∧
      (TokenRefresher.OIDCToken ct2
        (TokenRefresher.OIDCToken clientToken tf).state).networkCalled = false ∧
      (TokenRefresher.OIDCToken ct2
        (TokenRefresher.OIDCToken clientToken tf).state).state =
        (TokenRefresher.OIDCToken clientToken tf).state := by
  have hne : tf.refreshToken ≠ tk.refreshToken := by rw [he]; exact h0
  have hstate : (TokenRefresher.OIDCToken clientToken tf).state.refreshToken = "" := by
    simp [TokenRefresher.OIDCToken, h0, hc, hne, he]
  refine ⟨hstate, fun ct2 => ?_⟩
  generalize hgen : (TokenRefresher.OIDCToken clientToken tf).state = s2 at hstate ⊢
  simp [TokenRefresher.OIDCToken, hstate]

/-- C9 witness: a refresher holding old receives a token with an empty
refresh token; its held refresh token becomes empty and a subsequent call
fails immediately with no network call. -/
theorem refresher_rotation_to_empty_bricks_witness :
    (TokenRefresher.OIDCToken (fun _ _ _ => Except.ok ⟨"acc", "", "idt"⟩)
      ⟨"old", "cid", "sec", []⟩).state.refreshToken = "" ∧
    (TokenRefresher.OIDCToken (fun _ _ _ => Except.ok ⟨"acc2", "ref2", "idt2"⟩)
      (TokenRefresher.OIDCToken (fun _ _ _ => Except.ok ⟨"acc", "", "idt"⟩)
        ⟨"old", "cid", "sec", []⟩).state).result =
      Except.error "oauth2: token expired and refresh token is not set" ∧
    (TokenRefresher.OIDCToken (fun _ _ _ => Except.ok ⟨"acc2", "ref2", "idt2"⟩)
      (TokenRefresher.OIDCToken (fun _ _ _ => Except.ok ⟨"acc", "", "idt"⟩)
        ⟨"old", "cid", "sec", []⟩).state).networkCalled = false := by
  have h := refresher_rotation_to_empty_bricks
    (fun _ _ _ => Except.ok ⟨"acc", "", "idt"⟩)
    ⟨"old", "cid", "sec", []⟩ ⟨"acc", "", "idt"⟩ (by decide) rfl rfl
  exact ⟨h.1, (h.2 (fun _ _ _ => Except.ok ⟨"acc2", "ref2", "idt2"⟩)).1,
    (h.2 (fun _ _ _ => Except.ok ⟨"acc2", "ref2", "idt2"⟩)).2.1⟩

end Oidc
